import Mathlib

/-
Verification of the feather crafting-recipe matching engine and the
inventory window interaction dispatcher.

The recipe engine is embedded from src/feather/datapacks/src/recipe.rs.
The dispatcher is embedded from
src/feather/server/src/packet_handlers/inventory.rs.
The Window operations live in the external common::Window crate, which is
not part of the provided sources; they are modelled from the specification
(each such definition carries a doc comment starting with
"Modelled from the spec:").
-/

set_option maxRecDepth 4096

/-- An item identity from the generated catalog.  The generated `Item` enum
carries a numeric discriminant (used by `as u32` casts) and a textual name
(used by `Item::name`).  In the generated catalog both are injective, so
name equality coincides with identity equality. -/
structure Item where
  id : Nat
  name : String
deriving DecidableEq, Repr

/-- The generated `ItemStack`: an item, a count, and an optional damage. -/
structure ItemStack where
  item : Item
  count : Nat
  damage : Option Nat
deriving DecidableEq, Repr

/-- A namespaced identifier naming a tag (`crate::NamespacedId`). -/
abbrev NamespacedId := String

/-- The external tag registry, consumed only through `check_item_tag`. -/
structure TagRegistry where
  checkItemTag : Item → NamespacedId → Bool

/-- An opaque 32-bit float value (`f32`).  The recipe engine never computes
with experience values, it only stores and returns them, so the payload is
kept as an uninterpreted bit pattern. -/
structure F32 where
  bits : Nat
deriving DecidableEq, Repr

/-- `RecipeComponent` from recipe.rs: an optional item and an optional tag. -/
structure RecipeComponent where
  item : Option Item
  tag : Option NamespacedId
deriving DecidableEq, Repr

/-- `RecipeComponent::matches`: the item field (if present) must have the
input's name, or the tag field (if present) must be confirmed by the tag
registry; the source combines both tests with a (non-short-circuit) or. -/
def RecipeComponent.matches (c : RecipeComponent) (item : Item) (tr : TagRegistry) : Bool :=
  (c.item.map (fun s => item.name == s.name)).getD false
    || (c.tag.map (fun s => tr.checkItemTag item s)).getD false

/-- `Ingredient` from recipe.rs: one component, or an ordered list of
alternative components. -/
inductive Ingredient where
  | One (c : RecipeComponent)
  | Many (cs : List RecipeComponent)
deriving DecidableEq, Repr

/-- `Ingredient::matches`: single form delegates, alternative-set form
matches iff any contained component matches. -/
def Ingredient.matches (ing : Ingredient) (item : Item) (tr : TagRegistry) : Bool :=
  match ing with
  | .One o => o.matches item tr
  | .Many vec => vec.any (fun o => o.matches item tr)

/-- `SmeltingRecipe` from recipe.rs. -/
structure SmeltingRecipe where
  group : Option String
  ingredient : Ingredient
  result : Item
  experience : F32
  cookingtime : Nat
deriving DecidableEq, Repr

/-- `SmeltingRecipe::matches`. -/
def SmeltingRecipe.matches (r : SmeltingRecipe) (item : Item) (tr : TagRegistry) : Bool :=
  r.ingredient.matches item tr

/-- `SmeltingRecipe::match_self`. -/
def SmeltingRecipe.matchSelf (r : SmeltingRecipe) (item : Item) (tr : TagRegistry) :
    Option (Item × F32) :=
  if r.matches item tr then some (r.result, r.experience) else none

/-- `SmokingRecipe` from recipe.rs. -/
structure SmokingRecipe where
  group : Option String
  ingredient : Ingredient
  result : Item
  experience : F32
  cookingtime : Nat
deriving DecidableEq, Repr

/-- `SmokingRecipe::matches`. -/
def SmokingRecipe.matches (r : SmokingRecipe) (item : Item) (tr : TagRegistry) : Bool :=
  r.ingredient.matches item tr

/-- `SmokingRecipe::match_self`. -/
def SmokingRecipe.matchSelf (r : SmokingRecipe) (item : Item) (tr : TagRegistry) :
    Option (Item × F32) :=
  if r.matches item tr then some (r.result, r.experience) else none

/-- `BlastingRecipe` from recipe.rs. -/
structure BlastingRecipe where
  group : Option String
  ingredient : Ingredient
  result : Item
  experience : F32
  cookingtime : Nat
deriving DecidableEq, Repr

/-- `BlastingRecipe::matches`. -/
def BlastingRecipe.matches (r : BlastingRecipe) (item : Item) (tr : TagRegistry) : Bool :=
  r.ingredient.matches item tr

/-- `BlastingRecipe::match_self`. -/
def BlastingRecipe.matchSelf (r : BlastingRecipe) (item : Item) (tr : TagRegistry) :
    Option (Item × F32) :=
  if r.matches item tr then some (r.result, r.experience) else none

/-- `CampfireRecipe` from recipe.rs. -/
structure CampfireRecipe where
  group : Option String
  ingredient : Ingredient
  result : Item
  experience : F32
  cookingtime : Nat
deriving DecidableEq, Repr

/-- `CampfireRecipe::matches`. -/
def CampfireRecipe.matches (r : CampfireRecipe) (item : Item) (tr : TagRegistry) : Bool :=
  r.ingredient.matches item tr

/-- `CampfireRecipe::match_self`. -/
def CampfireRecipe.matchSelf (r : CampfireRecipe) (item : Item) (tr : TagRegistry) :
    Option (Item × F32) :=
  if r.matches item tr then some (r.result, r.experience) else none

/-- Default smelting cooking time (`default_smelting_time`). -/
def default_smelting_time : Nat := 200

/-- Default smoking cooking time (`default_smoking_time`). -/
def default_smoking_time : Nat := 100

/-- Default blasting cooking time (`default_blasting_time`). -/
def default_blasting_time : Nat := 100

/-- Default campfire cooking time (`default_campfire_time`). -/
def default_campfire_time : Nat := 100

/-- `ShapelessRecipe` from recipe.rs: note the `ingredients` field is a
single `Ingredient`, whose `Many` form holds the several alternatives. -/
structure ShapelessRecipe where
  group : Option String
  ingredients : Ingredient
  result : ItemStack
deriving DecidableEq, Repr

/-- The working list built at the start of `ShapelessRecipe::matches`:
a `One` ingredient is pushed as a one-element list, a `Many` ingredient is
drained into the list in order. -/
def ingredientItems : Ingredient → List RecipeComponent
  | .One ingredient => [ingredient]
  | .Many ingredients => ingredients

/-- The consume loop of `ShapelessRecipe::matches`: for each supplied item
in order, find the first working-list entry it satisfies
(`iter().enumerate().find`) and remove it (`Vec::remove`); return false as
soon as an item satisfies no remaining entry. -/
def shapelessConsume (tr : TagRegistry) : List RecipeComponent → List Item → Bool
  | _, [] => true
  | comps, i :: rest =>
    match comps.findIdx? (fun ing => ing.matches i tr) with
    | some index => shapelessConsume tr (comps.eraseIdx index) rest
    | none => false

/-- `ShapelessRecipe::matches`. -/
def ShapelessRecipe.matches (r : ShapelessRecipe) (items : List Item) (tr : TagRegistry) : Bool :=
  shapelessConsume tr (ingredientItems r.ingredients) items

/-- `ShapelessRecipe::match_self`. -/
def ShapelessRecipe.matchSelf (r : ShapelessRecipe) (items : List Item) (tr : TagRegistry) :
    Option ItemStack :=
  if r.matches items tr then some r.result else none

/-- `ShapedRecipe` from recipe.rs: the data model exists but no matching
algorithm is defined in the source. -/
structure ShapedRecipe where
  group : Option String
  pattern : List (List (Option Char))
  key : List (Char × Ingredient)
  result : ItemStack
deriving DecidableEq, Repr

/-- `SmithingRecipe` from recipe.rs. -/
structure SmithingRecipe where
  group : Option String
  base : Ingredient
  addition : Ingredient
  result : ItemStack
deriving DecidableEq, Repr

/-- `SmithingRecipe::matches`: both positions must accept their own item. -/
def SmithingRecipe.matches (r : SmithingRecipe) (base addition : Item) (tr : TagRegistry) :
    Bool :=
  r.base.matches base tr && r.addition.matches addition tr

/-- `SmithingRecipe::match_self`: on a match only the result stack's item is
returned (`self.result.item`); count and damage are discarded. -/
def SmithingRecipe.matchSelf (r : SmithingRecipe) (base addition : Item) (tr : TagRegistry) :
    Option Item :=
  if r.matches base addition tr then some r.result.item else none

/-- `StonecuttingRecipe` from recipe.rs. -/
structure StonecuttingRecipe where
  group : Option String
  ingredient : Ingredient
  result : Item
  count : Nat
deriving DecidableEq, Repr

/-- `StonecuttingRecipe::matches`. -/
def StonecuttingRecipe.matches (r : StonecuttingRecipe) (item : Item) (tr : TagRegistry) :
    Bool :=
  r.ingredient.matches item tr

/-- `StonecuttingRecipe::match_self`: builds a stack with the configured
count and an unset damage field. -/
def StonecuttingRecipe.matchSelf (r : StonecuttingRecipe) (item : Item) (tr : TagRegistry) :
    Option ItemStack :=
  if r.matches item tr then some { item := r.result, count := r.count, damage := none }
  else none

/-- The `Recipe` tagged union from recipe.rs. -/
inductive Recipe where
  | Blasting (r : BlastingRecipe)
  | Campfire (r : CampfireRecipe)
  | Shaped (r : ShapedRecipe)
  | Shapeless (r : ShapelessRecipe)
  | Smelting (r : SmeltingRecipe)
  | Smithing (r : SmithingRecipe)
  | Smoking (r : SmokingRecipe)
  | Stonecutting (r : StonecuttingRecipe)
  | Special
deriving DecidableEq, Repr

/-- `RecipeRegistry` from recipe.rs: one insertion-ordered list per kind. -/
structure RecipeRegistry where
  blast : List BlastingRecipe
  camp : List CampfireRecipe
  shaped : List ShapedRecipe
  shapeless : List ShapelessRecipe
  smelt : List SmeltingRecipe
  smith : List SmithingRecipe
  smoke : List SmokingRecipe
  stone : List StonecuttingRecipe
deriving DecidableEq, Repr

/-- `RecipeRegistry::new` / `Default`: all per-kind lists empty. -/
def RecipeRegistry.new : RecipeRegistry :=
  { blast := [], camp := [], shaped := [], shapeless := [], smelt := [], smith := [],
    smoke := [], stone := [] }

/-- The per-recipe arm of the match inside `RecipeRegistry::add_from_dir`:
a parsed recipe is pushed onto its kind's list; `Special` is dropped. -/
def RecipeRegistry.addRecipe (reg : RecipeRegistry) : Recipe → RecipeRegistry
  | .Blasting r => { reg with blast := reg.blast ++ [r] }
  | .Campfire r => { reg with camp := reg.camp ++ [r] }
  | .Shaped r => { reg with shaped := reg.shaped ++ [r] }
  | .Shapeless r => { reg with shapeless := reg.shapeless ++ [r] }
  | .Smelting r => { reg with smelt := reg.smelt ++ [r] }
  | .Smithing r => { reg with smith := reg.smith ++ [r] }
  | .Smoking r => { reg with smoke := reg.smoke ++ [r] }
  | .Stonecutting r => { reg with stone := reg.stone ++ [r] }
  | .Special => reg

/-- `RecipeRegistry::match_blasting`: first match in insertion order. -/
def RecipeRegistry.matchBlasting (reg : RecipeRegistry) (item : Item) (tr : TagRegistry) :
    Option (Item × F32) :=
  reg.blast.findSome? (fun r => r.matchSelf item tr)

/-- `RecipeRegistry::match_campfire_cooking`. -/
def RecipeRegistry.matchCampfireCooking (reg : RecipeRegistry) (item : Item)
    (tr : TagRegistry) : Option (Item × F32) :=
  reg.camp.findSome? (fun r => r.matchSelf item tr)

/-- `RecipeRegistry::match_shapeless`. -/
def RecipeRegistry.matchShapeless (reg : RecipeRegistry) (items : List Item)
    (tr : TagRegistry) : Option ItemStack :=
  reg.shapeless.findSome? (fun r => r.matchSelf items tr)

/-- `RecipeRegistry::match_smelting`. -/
def RecipeRegistry.matchSmelting (reg : RecipeRegistry) (item : Item) (tr : TagRegistry) :
    Option (Item × F32) :=
  reg.smelt.findSome? (fun r => r.matchSelf item tr)

/-- `RecipeRegistry::match_smithing`. -/
def RecipeRegistry.matchSmithing (reg : RecipeRegistry) (base addition : Item)
    (tr : TagRegistry) : Option Item :=
  reg.smith.findSome? (fun r => r.matchSelf base addition tr)

/-- `RecipeRegistry::match_smoking`. -/
def RecipeRegistry.matchSmoking (reg : RecipeRegistry) (item : Item) (tr : TagRegistry) :
    Option (Item × F32) :=
  reg.smoke.findSome? (fun r => r.matchSelf item tr)

/-- `RecipeRegistry::match_stonecutting`. -/
def RecipeRegistry.matchStonecutting (reg : RecipeRegistry) (item : Item) (tr : TagRegistry) :
    Option ItemStack :=
  reg.stone.findSome? (fun r => r.matchSelf item tr)

/-- `crate::RecipeLoadError`: either an I/O failure while reading the
directory or a file, or a JSON parse failure. -/
inductive RecipeLoadError where
  | ioError (msg : String)
  | parseError (msg : String)
deriving DecidableEq, Repr

/-- `RecipeRegistry::add_from_dir`, with the directory iteration abstracted
as the list of per-entry outcomes in directory order: each entry either
yields a parsed `Recipe` or fails (entry I/O error, file I/O error, or
parse error).  The `?` operator returns at the first failing entry, leaving
the registry with everything pushed so far; on success all parsed recipes
have been pushed in order. -/
def RecipeRegistry.addFromDir (reg : RecipeRegistry) :
    List (Except RecipeLoadError Recipe) → RecipeRegistry × Option RecipeLoadError
  | [] => (reg, none)
  | .error e :: _ => (reg, some e)
  | .ok r :: rest => RecipeRegistry.addFromDir (reg.addRecipe r) rest

/-- `RecipeRegistry::from_dir`: build a fresh registry with `add_from_dir`;
on any failure the partially built local registry is discarded and only the
error is returned. -/
def RecipeRegistry.fromDir (entries : List (Except RecipeLoadError Recipe)) :
    Except RecipeLoadError RecipeRegistry :=
  match RecipeRegistry.new.addFromDir entries with
  | (reg, none) => .ok reg
  | (_, some e) => .error e

/-- The tag of a recipe variant (which arm of the `Recipe` union a
descriptor's type string selects). -/
inductive RecipeTag where
  | blasting
  | campfire
  | shaped
  | shapeless
  | smelting
  | smithing
  | smoking
  | stonecutting
  | special
deriving DecidableEq, Repr

/-- The eight `serde(rename)` discriminators of the match-producing recipe
kinds, as listed on the `Recipe` union in recipe.rs. -/
def kindTypeStrings : List String :=
  ["minecraft:blasting",
   "minecraft:campfire_cooking",
   "minecraft:crafting_shaped",
   "minecraft:crafting_shapeless",
   "minecraft:smelting",
   "minecraft:smithing",
   "minecraft:smoking",
   "minecraft:stonecutting"]

/-- The `serde(alias)` discriminators of the `Special` variant, in the
order they are listed on the `Recipe` union in recipe.rs. -/
def specialTypeAliases : List String :=
  ["minecraft:crafting_special_armordye",
   "minecraft:crafting_special_bannerduplicate",
   "minecraft:crafting_special_bookcloning",
   "minecraft:crafting_special_firework_rocket",
   "minecraft:crafting_special_firework_star",
   "minecraft:crafting_special_firework_star_fade",
   "minecraft:crafting_special_mapcloning",
   "minecraft:crafting_special_mapextending",
   "minecraft:crafting_special_repairitem",
   "minecraft:crafting_special_shielddecoration",
   "minecraft:crafting_special_shulkerboxcoloring",
   "minecraft:crafting_special_tippedarrow",
   "minecraft:crafting_special_suspiciousstew"]

/-- The discriminator recognition performed by the serde-derived
deserializer for the internally tagged `Recipe` union: a renamed variant is
selected exactly by its rename string; the `Special` variant is selected by
any of its alias strings, or by its un-renamed variant name "Special" (a
serde artifact of having aliases without a rename); any other type string
is rejected, failing the parse. -/
def parseRecipeType (s : String) : Option RecipeTag :=
  if s = "minecraft:blasting" then some .blasting
  else if s = "minecraft:campfire_cooking" then some .campfire
  else if s = "minecraft:crafting_shaped" then some .shaped
  else if s = "minecraft:crafting_shapeless" then some .shapeless
  else if s = "minecraft:smelting" then some .smelting
  else if s = "minecraft:smithing" then some .smithing
  else if s = "minecraft:smoking" then some .smoking
  else if s = "minecraft:stonecutting" then some .stonecutting
  else if s ∈ specialTypeAliases then some .special
  else if s = "Special" then some .special
  else none

/-- Removal of the first working-list entry an item satisfies, phrased the
way the specification describes it: scan the list in order for the first
alternative the item satisfies and remove it, or report failure. -/
def removeFirstMatch (tr : TagRegistry) (i : Item) :
    List RecipeComponent → Option (List RecipeComponent)
  | [] => none
  | c :: cs =>
    if c.matches i tr then some cs
    else (removeFirstMatch tr i cs).map (fun cs2 => c :: cs2)

/-- The shapeless matching algorithm exactly as the specification words it:
consume one working-list alternative per supplied item, in supplied-item
order; fail when an item consumes nothing; succeed once all supplied items
are consumed, regardless of leftover alternatives. -/
def specShapelessConsume (tr : TagRegistry) :
    List RecipeComponent → List Item → Bool
  | _, [] => true
  | comps, i :: rest =>
    match removeFirstMatch tr i comps with
    | some comps2 => specShapelessConsume tr comps2 rest
    | none => false

/-- Shapeless matching as described by the specification: build the working
list (single-component ingredient becomes a one-element list) and run the
consume loop. -/
def specShapelessMatches (r : ShapelessRecipe) (items : List Item) (tr : TagRegistry) :
    Bool :=
  specShapelessConsume tr (ingredientItems r.ingredients) items

/-- Modelled from the spec: the Window's backing storage variant
(`common::window::BackingWindow`, not under src/): a player-only personal
inventory, or a paired external container plus player inventory. -/
inductive BackingKind where
  | player
  | generic
deriving DecidableEq, Repr

/-- Modelled from the spec: the paint direction of a multi-slot drag
session (`even` for a left-mouse paint, `single` for a right-mouse
paint). -/
inductive PaintDir where
  | even
  | single
deriving DecidableEq, Repr

/-- Modelled from the spec: the Window's transient interaction state, one
explicit tagged value: Idle, or Painting with a direction and an ordered
set of touched slot indices. -/
inductive PaintState where
  | idle
  | painting (dir : PaintDir) (touched : List Nat)
deriving DecidableEq, Repr

/-- Modelled from the spec: a Window (`common::Window`, not under src/):
backing storage variant, slot storage, single cursor-held stack, and the
interaction state. -/
structure WindowState where
  backing : BackingKind
  slots : List (Option ItemStack)
  cursor : Option ItemStack
  paint : PaintState
deriving DecidableEq, Repr

/-- Modelled from the spec: whether the backing storage is the entity's own
personal-inventory window (the `BackingWindow::Player { .. }` check). -/
def WindowState.isPlayer (w : WindowState) : Bool :=
  match w.backing with
  | .player => true
  | .generic => false

/-- Modelled from the spec: bounds-checked slot read (`Window::item`); any
slot index at or beyond the window's logical slot count fails with an
out-of-bounds error. -/
def WindowState.itemAt (w : WindowState) (slot : Nat) : Except String (Option ItemStack) :=
  if slot < w.slots.length then .ok (w.slots.getD slot none)
  else .error "slot index out of bounds"

/-- Modelled from the spec: the cursor-held item accessor
(`Window::cursor_item`). -/
def WindowState.cursorItem (w : WindowState) : Option ItemStack :=
  w.cursor

/-- Modelled from the spec: bounds-checked slot write (`Window::set_item`);
out-of-bounds indices fail without mutating. -/
def WindowState.setItem (w : WindowState) (slot : Nat) (value : Option ItemStack) :
    Except String WindowState :=
  if slot < w.slots.length then .ok { w with slots := w.slots.set slot value }
  else .error "slot index out of bounds"

/-- Modelled from the spec: `Window::drop_item` removes and returns the
slot's entire contents (none if already empty); out-of-bounds fails. -/
def WindowState.dropItem (w : WindowState) (slot : Nat) :
    Except String (Option ItemStack × WindowState) :=
  if slot < w.slots.length then
    .ok (w.slots.getD slot none, { w with slots := w.slots.set slot none })
  else .error "slot index out of bounds"

/-- Modelled from the spec: `Window::left_click` — if cursor and slot hold
the same item type, merge counts up to the per-item maximum with the
overflow split across the two; otherwise swap cursor and slot contents
wholesale. -/
def WindowState.leftClick (w : WindowState) (ms : Item → Nat) (slot : Nat) :
    Except String WindowState :=
  if slot < w.slots.length then
    let s := w.slots.getD slot none
    match w.cursor, s with
    | some c, some t =>
      if c.item = t.item then
        let total := c.count + t.count
        let inSlot := min total (ms t.item)
        let rest := total - inSlot
        .ok { w with slots := w.slots.set slot (some { t with count := inSlot }),
                     cursor := if rest = 0 then none else some { c with count := rest } }
      else .ok { w with slots := w.slots.set slot w.cursor, cursor := s }
    | _, _ => .ok { w with slots := w.slots.set slot w.cursor, cursor := s }
  else .error "slot index out of bounds"

/-- Modelled from the spec: `Window::right_click` — transfers exactly one
unit from cursor to slot when the types are compatible (slot empty or of
the same type and not full); with an empty cursor over an occupied slot,
picks up half the slot count rounded up; combinations the specification
leaves unspecified are modelled as no-ops. -/
def WindowState.rightClick (w : WindowState) (ms : Item → Nat) (slot : Nat) :
    Except String WindowState :=
  if slot < w.slots.length then
    let s := w.slots.getD slot none
    match w.cursor, s with
    | none, some t =>
      let take := (t.count + 1) / 2
      let rem := t.count - take
      .ok { w with cursor := some { t with count := take },
                   slots := w.slots.set slot
                     (if rem = 0 then none else some { t with count := rem }) }
    | some c, none =>
      .ok { w with slots := w.slots.set slot (some { c with count := 1 }),
                   cursor := if c.count - 1 = 0 then none
                             else some { c with count := c.count - 1 } }
    | some c, some t =>
      if c.item = t.item ∧ t.count < ms t.item then
        .ok { w with slots := w.slots.set slot (some { t with count := t.count + 1 }),
                     cursor := if c.count - 1 = 0 then none
                               else some { c with count := c.count - 1 } }
      else .ok w
    | none, none => .ok w
  else .error "slot index out of bounds"

/-- Modelled from the spec: whether a destination slot can receive the
whole relocated stack during a shift click: empty, or same item type and
enough remaining capacity. -/
def shiftDestOk (w : WindowState) (ms : Item → Nat) (st : ItemStack) (j : Nat) : Bool :=
  match w.slots.getD j none with
  | none => true
  | some t => t.item = st.item && t.count + st.count ≤ ms st.item

/-- Modelled from the spec: `Window::shift_click` — relocate the slot's
entire stack into the first compatible slot elsewhere in the window's own
storage; a no-op success when the slot is empty or no destination has
capacity. -/
def WindowState.shiftClick (w : WindowState) (ms : Item → Nat) (slot : Nat) :
    Except String WindowState :=
  if slot < w.slots.length then
    match w.slots.getD slot none with
    | none => .ok w
    | some st =>
      match (List.range w.slots.length).find?
          (fun j => decide (j ≠ slot) && shiftDestOk w ms st j) with
      | none => .ok w
      | some j =>
        let merged : ItemStack :=
          match w.slots.getD j none with
          | none => st
          | some t => { t with count := t.count + st.count }
        .ok { w with slots := (w.slots.set slot none).set j (some merged) }
  else .error "slot index out of bounds"

/-- Modelled from the spec: `Window::begin_left_mouse_paint` opens an
even-direction paint session, discarding any prior session. -/
def WindowState.beginLeftMousePaint (w : WindowState) : WindowState :=
  { w with paint := .painting .even [] }

/-- Modelled from the spec: `Window::begin_right_mouse_paint` opens a
single-direction paint session, discarding any prior session. -/
def WindowState.beginRightMousePaint (w : WindowState) : WindowState :=
  { w with paint := .painting .single [] }

/-- Modelled from the spec: `Window::add_paint_slot` appends the slot to
the open session's touched set, idempotently; fails if no session is
open. -/
def WindowState.addPaintSlot (w : WindowState) (slot : Nat) : Except String WindowState :=
  match w.paint with
  | .idle => .error "no paint session is open"
  | .painting d ts =>
    .ok { w with paint := .painting d (if ts.contains slot then ts else ts ++ [slot]) }

/-- Modelled from the spec: whether a touched slot is eligible to receive
paint from the held stack: in bounds and empty, or holding the same item
type and not full. -/
def paintEligible (w : WindowState) (ms : Item → Nat) (c : ItemStack) (j : Nat) : Bool :=
  decide (j < w.slots.length) &&
    match w.slots.getD j none with
    | none => true
    | some t => t.item = c.item && t.count < ms t.item

/-- Modelled from the spec: place `per` units (capped by remaining slot
capacity) of the held item into each eligible slot in order, returning the
updated slot list and the total number of units placed. -/
def placeEven (ms : Item → Nat) (c : ItemStack) (per : Nat) :
    List Nat → List (Option ItemStack) → List (Option ItemStack) × Nat
  | [], slots => (slots, 0)
  | j :: rest, slots =>
    let curCount := match slots.getD j none with | none => 0 | some t => t.count
    let add := min per (ms c.item - curCount)
    let slots2 := slots.set j (some { item := c.item, count := curCount + add,
                                      damage := c.damage })
    let next := placeEven ms c per rest slots2
    (next.1, next.2 + add)

/-- Modelled from the spec: place exactly one unit of the held item into
each eligible slot in order while units remain, returning the updated slot
list and the number of units left on the cursor. -/
def placeSingle (c : ItemStack) :
    List Nat → Nat → List (Option ItemStack) → List (Option ItemStack) × Nat
  | [], remaining, slots => (slots, remaining)
  | j :: rest, remaining, slots =>
    if remaining = 0 then (slots, 0)
    else
      let curCount := match slots.getD j none with | none => 0 | some t => t.count
      let slots2 := slots.set j (some { item := c.item, count := curCount + 1,
                                        damage := c.damage })
      placeSingle c rest (remaining - 1) slots2

/-- Modelled from the spec: `Window::end_paint` — fails if no session is
open; otherwise distributes the cursor stack across the eligible touched
slots (even direction splits the held count as evenly as possible, single
direction places one unit per slot) and unconditionally resets the session
to Idle. -/
def WindowState.endPaint (w : WindowState) (ms : Item → Nat) : Except String WindowState :=
  match w.paint with
  | .idle => .error "no paint session is open"
  | .painting d ts =>
    match w.cursor with
    | none => .ok { w with paint := .idle }
    | some c =>
      let eligible := ts.filter (fun j => paintEligible w ms c j)
      match d with
      | .even =>
        if eligible.length = 0 then .ok { w with paint := .idle }
        else
          let per := c.count / eligible.length
          let placed := placeEven ms c per eligible w.slots
          .ok { w with slots := placed.1,
                       cursor := if c.count - placed.2 = 0 then none
                                 else some { c with count := c.count - placed.2 },
                       paint := .idle }
      | .single =>
        let placed := placeSingle c eligible c.count w.slots
        .ok { w with slots := placed.1,
                     cursor := if placed.2 = 0 then none
                               else some { c with count := placed.2 },
                     paint := .idle }

/-- The `base::Gamemode` values relevant to the dispatcher. -/
inductive Gamemode where
  | survival
  | creative
  | adventure
  | spectator
deriving DecidableEq, Repr

/-- The fields of the `CreativeInventoryAction` packet consumed by the
handler: a signed slot index and the item the client set. -/
structure CreativeInventoryAction where
  slot : Int
  clickedItem : Option ItemStack
deriving DecidableEq, Repr

/-- The fields of the `ClickWindow` packet consumed by the handler. -/
structure ClickWindow where
  windowId : Nat
  slot : Int
  button : Nat
  mode : Nat
  actionNumber : Int
deriving DecidableEq, Repr

/-- The `as usize` cast applied to the packet's signed slot index: the
value is sign-extended and reinterpreted as an unsigned 64-bit machine
word, so a negative index becomes a huge number (and fails every bounds
check). -/
def slotAsUsize (s : Int) : Nat :=
  (s % (2 : Int) ^ 64).toNat

/-- The outbound messages the dispatcher can send to the client. -/
inductive OutMsg where
  | confirmWindowAction (windowId : Nat) (actionNumber : Int) (accepted : Bool)
  | setSlot (slot : Int) (contents : Option ItemStack)
  | setCursorSlot (contents : Option ItemStack)
  | sendWindowItems (slots : List (Option ItemStack))
deriving DecidableEq, Repr

/-- The complete observable outcome of one `handle_click_window` call: the
final window state, the entity-scoped drop events inserted (as the `u32`
item identities they carry), the outbound messages sent, and the error the
handler returned, if any. -/
structure ClickOutcome where
  window : WindowState
  events : List Nat
  sent : List OutMsg
  error : Option String
deriving DecidableEq, Repr

/-- `handle_creative_inventory_action` from inventory.rs, embedded with the
player's game mode and window passed explicitly.  Returns the final window
state and the error, if any: the gamemode check runs first; only when the
slot is not -1 are the personal-window check and the `set_item` call
performed; a slot of -1 then succeeds without touching the window. -/
def handleCreativeInventoryAction (gm : Gamemode) (w : WindowState)
    (packet : CreativeInventoryAction) : WindowState × Option String :=
  if gm ≠ Gamemode.creative then
    (w, some "cannot use Creative Inventory Action outside of creative mode")
  else if packet.slot ≠ -1 then
    if ¬ w.isPlayer then
      (w, some "cannot use Creative Inventory Action in external inventories")
    else
      match w.setItem (slotAsUsize packet.slot) packet.clickedItem with
      | .ok w2 => (w2, none)
      | .error e => (w, some e)
  else (w, none)

/-- The `match packet.mode` statement of `handle_click_window` (the routing
table).  The mode-4 arm is absent from this match in the source — the drop
was performed in a separate block before it — so mode 4 falls through to
the default arm and bails with "unsupported window click mode". -/
def routeClick (ms : Item → Nat) (packet : ClickWindow) (w : WindowState) :
    Except String WindowState :=
  if packet.mode = 0 then
    if packet.button = 0 then w.leftClick ms (slotAsUsize packet.slot)
    else if packet.button = 1 then w.rightClick ms (slotAsUsize packet.slot)
    else .error "unrecgonized click"
  else if packet.mode = 1 then w.shiftClick ms (slotAsUsize packet.slot)
  else if packet.mode = 5 then
    if packet.button = 0 then .ok w.beginLeftMousePaint
    else if packet.button = 4 then .ok w.beginRightMousePaint
    else if packet.button = 1 ∨ packet.button = 5 then
      w.addPaintSlot (slotAsUsize packet.slot)
    else if packet.button = 2 ∨ packet.button = 6 then w.endPaint ms
    else .error "unrecognized paint operation"
  else .error "unsupported window click mode"

/-- The tail of `handle_click_window` after the mode-4 block: route the
gesture; on success send the action confirmation, then (for a non-negative
slot index) the slot contents read through the fallible `Window::item`,
then the cursor contents, then the full window contents.  A routing or
window-operation failure sends nothing; a failure of the post-success
`item` read has already sent the confirmation. -/
def finishClick (ms : Item → Nat) (packet : ClickWindow) (evs : List Nat)
    (w1 : WindowState) : ClickOutcome :=
  match routeClick ms packet w1 with
  | .error e => { window := w1, events := evs, sent := [], error := some e }
  | .ok w2 =>
    let confirm := OutMsg.confirmWindowAction packet.windowId packet.actionNumber true
    if 0 ≤ packet.slot then
      match w2.itemAt (slotAsUsize packet.slot) with
      | .error e => { window := w2, events := evs, sent := [confirm], error := some e }
      | .ok contents =>
        { window := w2, events := evs,
          sent := [confirm, OutMsg.setSlot packet.slot contents,
                   OutMsg.setCursorSlot w2.cursorItem,
                   OutMsg.sendWindowItems w2.slots],
          error := none }
    else
      { window := w2, events := evs,
        sent := [confirm, OutMsg.setCursorSlot w2.cursorItem,
                 OutMsg.sendWindowItems w2.slots],
        error := none }

/-- `handle_click_window` from inventory.rs.  The mode-4 drop is performed
in a block split off before the routing match (a lifetime workaround in the
source): it removes the slot's contents and, when non-empty, inserts a
`DropItemEvent` carrying `item.item as u32`; any error there aborts the
gesture.  Control then falls into the routing match, whose arms cover only
modes 0, 1 and 5. -/
def handleClickWindow (ms : Item → Nat) (packet : ClickWindow) (w : WindowState) :
    ClickOutcome :=
  if packet.mode = 4 then
    match w.dropItem (slotAsUsize packet.slot) with
    | .error e => { window := w, events := [], sent := [], error := some e }
    | .ok (itemOption, w1) =>
      let evs := match itemOption with
        | some st => [st.item.id % 2 ^ 32]
        | none => []
      finishClick ms packet evs w1
  else finishClick ms packet [] w

/-- Appending a list of already-parsed recipes to a registry in order
(`add_from_dir` restricted to a directory whose entries all succeed). -/
def RecipeRegistry.addAll (reg : RecipeRegistry) (rs : List Recipe) : RecipeRegistry :=
  rs.foldl RecipeRegistry.addRecipe reg

/-- The smelting projection of the `Recipe` union. -/
def asSmelting : Recipe → Option SmeltingRecipe
  | .Smelting r => some r
  | _ => none

/-- The blasting projection of the `Recipe` union. -/
def asBlasting : Recipe → Option BlastingRecipe
  | .Blasting r => some r
  | _ => none

/-- The campfire projection of the `Recipe` union. -/
def asCampfire : Recipe → Option CampfireRecipe
  | .Campfire r => some r
  | _ => none

/-- The shapeless projection of the `Recipe` union. -/
def asShapeless : Recipe → Option ShapelessRecipe
  | .Shapeless r => some r
  | _ => none

/-- The smithing projection of the `Recipe` union. -/
def asSmithing : Recipe → Option SmithingRecipe
  | .Smithing r => some r
  | _ => none

/-- The smoking projection of the `Recipe` union. -/
def asSmoking : Recipe → Option SmokingRecipe
  | .Smoking r => some r
  | _ => none

/-- The stonecutting projection of the `Recipe` union. -/
def asStonecutting : Recipe → Option StonecuttingRecipe
  | .Stonecutting r => some r
  | _ => none

lemma addAll_smelt (rs : List Recipe) :
    ∀ reg : RecipeRegistry, (reg.addAll rs).smelt = reg.smelt ++ rs.filterMap asSmelting := by
  induction rs with
  | nil => intro reg; simp [RecipeRegistry.addAll]
  | cons r rest ih =>
    intro reg
    have ih2 : ∀ reg2 : RecipeRegistry,
        (List.foldl RecipeRegistry.addRecipe reg2 rest).smelt =
          reg2.smelt ++ rest.filterMap asSmelting := ih
    cases r <;>
      simp [RecipeRegistry.addAll, RecipeRegistry.addRecipe, asSmelting, ih2]

lemma addAll_blast (rs : List Recipe) :
    ∀ reg : RecipeRegistry, (reg.addAll rs).blast = reg.blast ++ rs.filterMap asBlasting := by
  induction rs with
  | nil => intro reg; simp [RecipeRegistry.addAll]
  | cons r rest ih =>
    intro reg
    have ih2 : ∀ reg2 : RecipeRegistry,
        (List.foldl RecipeRegistry.addRecipe reg2 rest).blast =
          reg2.blast ++ rest.filterMap asBlasting := ih
    cases r <;>
      simp [RecipeRegistry.addAll, RecipeRegistry.addRecipe, asBlasting, ih2]

lemma addAll_camp (rs : List Recipe) :
    ∀ reg : RecipeRegistry, (reg.addAll rs).camp = reg.camp ++ rs.filterMap asCampfire := by
  induction rs with
  | nil => intro reg; simp [RecipeRegistry.addAll]
  | cons r rest ih =>
    intro reg
    have ih2 : ∀ reg2 : RecipeRegistry,
        (List.foldl RecipeRegistry.addRecipe reg2 rest).camp =
          reg2.camp ++ rest.filterMap asCampfire := ih
    cases r <;>
      simp [RecipeRegistry.addAll, RecipeRegistry.addRecipe, asCampfire, ih2]

lemma addAll_shapeless (rs : List Recipe) :
    ∀ reg : RecipeRegistry, (reg.addAll rs).shapeless = reg.shapeless ++ rs.filterMap asShapeless := by
  induction rs with
  | nil => intro reg; simp [RecipeRegistry.addAll]
  | cons r rest ih =>
    intro reg
    have ih2 : ∀ reg2 : RecipeRegistry,
        (List.foldl RecipeRegistry.addRecipe reg2 rest).shapeless =
          reg2.shapeless ++ rest.filterMap asShapeless := ih
    cases r <;>
      simp [RecipeRegistry.addAll, RecipeRegistry.addRecipe, asShapeless, ih2]

lemma addAll_smith (rs : List Recipe) :
    ∀ reg : RecipeRegistry, (reg.addAll rs).smith = reg.smith ++ rs.filterMap asSmithing := by
  induction rs with
  | nil => intro reg; simp [RecipeRegistry.addAll]
  | cons r rest ih =>
    intro reg
    have ih2 : ∀ reg2 : RecipeRegistry,
        (List.foldl RecipeRegistry.addRecipe reg2 rest).smith =
          reg2.smith ++ rest.filterMap asSmithing := ih
    cases r <;>
      simp [RecipeRegistry.addAll, RecipeRegistry.addRecipe, asSmithing, ih2]

lemma addAll_smoke (rs : List Recipe) :
    ∀ reg : RecipeRegistry, (reg.addAll rs).smoke = reg.smoke ++ rs.filterMap asSmoking := by
  induction rs with
  | nil => intro reg; simp [RecipeRegistry.addAll]
  | cons r rest ih =>
    intro reg
    have ih2 : ∀ reg2 : RecipeRegistry,
        (List.foldl RecipeRegistry.addRecipe reg2 rest).smoke =
          reg2.smoke ++ rest.filterMap asSmoking := ih
    cases r <;>
      simp [RecipeRegistry.addAll, RecipeRegistry.addRecipe, asSmoking, ih2]

lemma addAll_stone (rs : List Recipe) :
    ∀ reg : RecipeRegistry, (reg.addAll rs).stone = reg.stone ++ rs.filterMap asStonecutting := by
  induction rs with
  | nil => intro reg; simp [RecipeRegistry.addAll]
  | cons r rest ih =>
    intro reg
    have ih2 : ∀ reg2 : RecipeRegistry,
        (List.foldl RecipeRegistry.addRecipe reg2 rest).stone =
          reg2.stone ++ rest.filterMap asStonecutting := ih
    cases r <;>
      simp [RecipeRegistry.addAll, RecipeRegistry.addRecipe, asStonecutting, ih2]

lemma findSome?_guard {α β : Type} (p : α → Bool) (g : α → β) :
    ∀ l : List α,
      l.findSome? (fun r => if p r then some (g r) else none) = (l.find? p).map g := by
  intro l
  induction l with
  | nil => rfl
  | cons a t ih =>
    by_cases h : p a = true <;>
      simp [List.findSome?_cons, List.find?_cons, h, ih]

lemma addFromDir_error (entries : List (Except RecipeLoadError Recipe)) :
    ∀ reg : RecipeRegistry, (∃ e, Except.error e ∈ entries) →
      ∃ e2, (reg.addFromDir entries).2 = some e2 := by
  induction entries with
  | nil => intro reg h; obtain ⟨e, he⟩ := h; cases he
  | cons entry rest ih =>
    intro reg h
    cases entry with
    | error e => exact ⟨e, rfl⟩
    | ok r =>
      obtain ⟨e, he⟩ := h
      rcases List.mem_cons.mp he with h1 | h1
      · cases h1
      · exact ih (reg.addRecipe r) ⟨e, h1⟩

lemma findIdx?_eraseIdx_eq_removeFirstMatch (tr : TagRegistry) (i : Item) :
    ∀ comps : List RecipeComponent,
      (match comps.findIdx? (fun c => c.matches i tr) with
       | some index => some (comps.eraseIdx index)
       | none => none) = removeFirstMatch tr i comps := by
  intro comps
  induction comps with
  | nil => rfl
  | cons c cs ih =>
    by_cases h : c.matches i tr = true
    · simp [List.findIdx?_cons, h, removeFirstMatch]
    · simp only [Bool.not_eq_true] at h
      simp only [List.findIdx?_cons, h, removeFirstMatch, Bool.false_eq_true, if_false, ← ih]
      cases h2 : cs.findIdx? (fun c => c.matches i tr) <;> simp [h2, List.eraseIdx]

lemma shapelessConsume_eq_spec (tr : TagRegistry) (items : List Item) :
    ∀ comps : List RecipeComponent,
      shapelessConsume tr comps items = specShapelessConsume tr comps items := by
  induction items with
  | nil => intro comps; rfl
  | cons i rest ih =>
    intro comps
    rw [shapelessConsume, specShapelessConsume,
      ← findIdx?_eraseIdx_eq_removeFirstMatch tr i comps]
    cases h : comps.findIdx? (fun c => c.matches i tr) <;> simp [h, ih]

/-- A concrete item used in the worked examples. -/
def itemA : Item := { id := 1, name := "minecraft:glass" }

/-- A concrete item used in the worked examples. -/
def itemB : Item := { id := 2, name := "minecraft:wet_sponge" }

/-- A concrete item used in the worked examples (matching no ingredient). -/
def itemC : Item := { id := 3, name := "minecraft:dead_bush" }

/-- A concrete output item used in the worked examples. -/
def itemTnt : Item := { id := 10, name := "minecraft:tnt" }

/-- A tag registry confirming no tag at all. -/
def trEmpty : TagRegistry := { checkItemTag := fun _ _ => false }

/-- The single component accepting exactly `itemA`. -/
def compA : RecipeComponent := { item := some itemA, tag := none }

/-- The single component accepting exactly `itemB`. -/
def compB : RecipeComponent := { item := some itemB, tag := none }

/-- A shapeless recipe whose alternatives are one A-component and one
B-component. -/
def shapelessAB : ShapelessRecipe :=
  { group := none, ingredients := .Many [compA, compB],
    result := { item := itemTnt, count := 1, damage := none } }

/-- A smelting recipe accepting `itemA` and producing `itemB`. -/
def smeltA1 : SmeltingRecipe :=
  { group := none, ingredient := .One compA, result := itemB,
    experience := { bits := 1 }, cookingtime := 200 }

/-- A second smelting recipe also accepting `itemA`, producing `itemC`. -/
def smeltA2 : SmeltingRecipe :=
  { group := none, ingredient := .One compA, result := itemC,
    experience := { bits := 2 }, cookingtime := 200 }

/-- A smithing recipe whose base position accepts only `itemA` and whose
addition position accepts only `itemB`. -/
def smithAB : SmithingRecipe :=
  { group := none, base := .One compA, addition := .One compB,
    result := { item := itemTnt, count := 1, damage := none } }

/-- A concrete load error used in the worked examples. -/
def loadErr : RecipeLoadError := .parseError "malformed descriptor"

/-- A directory listing whose first entry parses and whose second entry
fails. -/
def entriesBad : List (Except RecipeLoadError Recipe) :=
  [.ok (.Smelting smeltA1), .error loadErr]

/-- The constant per-item maximum stack size used in the worked examples. -/
def ms64 : Item → Nat := fun _ => 64

/-- A concrete stack sitting in a window slot in the worked examples. -/
def stoneStack : ItemStack := { item := { id := 7, name := "minecraft:stone" }, count := 5,
                                damage := none }

/-- A two-slot personal-inventory window whose slot 0 holds `stoneStack`. -/
def wDrop : WindowState :=
  { backing := .player, slots := [some stoneStack, none], cursor := none, paint := .idle }

/-- An empty two-slot personal-inventory window. -/
def wPlayerEmpty : WindowState :=
  { backing := .player, slots := [none, none], cursor := none, paint := .idle }

/-- An empty two-slot window backed by an external container. -/
def wGenericEmpty : WindowState :=
  { backing := .generic, slots := [none, none], cursor := none, paint := .idle }

/-- A mode-4 (drop) gesture on slot 0. -/
def packetDrop : ClickWindow :=
  { windowId := 1, slot := 0, button := 0, mode := 4, actionNumber := 2 }

/-- A mode-5 begin-paint gesture carrying an out-of-range slot index. -/
def packetPaintOob : ClickWindow :=
  { windowId := 1, slot := 9, button := 0, mode := 5, actionNumber := 3 }

/-- A gesture with an unsupported mode. -/
def packetMode3 : ClickWindow :=
  { windowId := 1, slot := 0, button := 0, mode := 3, actionNumber := 4 }

/-- A creative-set action with slot -1. -/
def packetCreativeNeg1 : CreativeInventoryAction :=
  { slot := -1, clickedItem := some stoneStack }

/-- Claim C1: for every shapeless recipe and supplied item sequence, the
match builds a working list of ingredient alternatives (a single-component
ingredient becoming a one-element list) and, for each supplied item in
order, consumes the first alternative it satisfies, failing when an item
consumes nothing and succeeding once every supplied item has consumed an
alternative, regardless of leftovers; concretely, with alternatives
`[A-component, B-component]`, supplying `[A, B]` and `[A]` matches, while
`[A, B, C]` (C matching neither) and `[A, A]` do not. -/
theorem shapeless_match_algorithm :
    (∀ (r : ShapelessRecipe) (items : List Item) (tr : TagRegistry),
        r.matches items tr = specShapelessMatches r items tr) ∧
    shapelessAB.matches [itemA, itemB] trEmpty = true ∧
    shapelessAB.matches [itemA] trEmpty = true ∧
    shapelessAB.matches [itemA, itemB, itemC] trEmpty = false ∧
    shapelessAB.matches [itemA, itemA] trEmpty = false := by
  refine ⟨fun r items tr => ?_, by decide, by decide, by decide, by decide⟩
  rw [ShapelessRecipe.matches, specShapelessMatches, shapelessConsume_eq_spec]

/-- Claim C2: every per-kind registry query scans that kind's recipes in
descriptor load order and returns the first matching recipe's derived
output, or none; a fully successful directory load is exactly the in-order
insertion of its parsed recipes; in particular, with two smelting recipes
both accepting the same item, the first (load-order) recipe's output is
returned. -/
theorem registry_first_match_wins :
    (∀ (rs : List Recipe) (item : Item) (tr : TagRegistry),
        (RecipeRegistry.new.addAll rs).matchBlasting item tr =
          ((rs.filterMap asBlasting).find? (fun r => r.matches item tr)).map
            (fun r => (r.result, r.experience))) ∧
    (∀ (rs : List Recipe) (item : Item) (tr : TagRegistry),
        (RecipeRegistry.new.addAll rs).matchCampfireCooking item tr =
          ((rs.filterMap asCampfire).find? (fun r => r.matches item tr)).map
            (fun r => (r.result, r.experience))) ∧
    (∀ (rs : List Recipe) (items : List Item) (tr : TagRegistry),
        (RecipeRegistry.new.addAll rs).matchShapeless items tr =
          ((rs.filterMap asShapeless).find? (fun r => r.matches items tr)).map
            (fun r => r.result)) ∧
    (∀ (rs : List Recipe) (item : Item) (tr : TagRegistry),
        (RecipeRegistry.new.addAll rs).matchSmelting item tr =
          ((rs.filterMap asSmelting).find? (fun r => r.matches item tr)).map
            (fun r => (r.result, r.experience))) ∧
    (∀ (rs : List Recipe) (base addition : Item) (tr : TagRegistry),
        (RecipeRegistry.new.addAll rs).matchSmithing base addition tr =
          ((rs.filterMap asSmithing).find? (fun r => r.matches base addition tr)).map
            (fun r => r.result.item)) ∧
    (∀ (rs : List Recipe) (item : Item) (tr : TagRegistry),
        (RecipeRegistry.new.addAll rs).matchSmoking item tr =
          ((rs.filterMap asSmoking).find? (fun r => r.matches item tr)).map
            (fun r => (r.result, r.experience))) ∧
    (∀ (rs : List Recipe) (item : Item) (tr : TagRegistry),
        (RecipeRegistry.new.addAll rs).matchStonecutting item tr =
          ((rs.filterMap asStonecutting).find? (fun r => r.matches item tr)).map
            (fun r => ({ item := r.result, count := r.count, damage := none } : ItemStack))) ∧
    (∀ (r1 r2 : SmeltingRecipe) (item : Item) (tr : TagRegistry),
        r1.matches item tr = true →
        (RecipeRegistry.new.addAll [.Smelting r1, .Smelting r2]).matchSmelting item tr =
          some (r1.result, r1.experience)) := by
  refine ⟨?_, ?_, ?_, ?_, ?_, ?_, ?_, ?_⟩
  · intro rs item tr
    rw [RecipeRegistry.matchBlasting, addAll_blast]
    simp only [RecipeRegistry.new, List.nil_append]
    rw [show (fun r : BlastingRecipe => r.matchSelf item tr) =
      (fun r : BlastingRecipe => if r.matches item tr then some (r.result, r.experience)
        else none) from rfl]
    exact findSome?_guard _ _ _
  · intro rs item tr
    rw [RecipeRegistry.matchCampfireCooking, addAll_camp]
    simp only [RecipeRegistry.new, List.nil_append]
    rw [show (fun r : CampfireRecipe => r.matchSelf item tr) =
      (fun r : CampfireRecipe => if r.matches item tr then some (r.result, r.experience)
        else none) from rfl]
    exact findSome?_guard _ _ _
  · intro rs items tr
    rw [RecipeRegistry.matchShapeless, addAll_shapeless]
    simp only [RecipeRegistry.new, List.nil_append]
    rw [show (fun r : ShapelessRecipe => r.matchSelf items tr) =
      (fun r : ShapelessRecipe => if r.matches items tr then some r.result
        else none) from rfl]
    exact findSome?_guard _ _ _
  · intro rs item tr
    rw [RecipeRegistry.matchSmelting, addAll_smelt]
    simp only [RecipeRegistry.new, List.nil_append]
    rw [show (fun r : SmeltingRecipe => r.matchSelf item tr) =
      (fun r : SmeltingRecipe => if r.matches item tr then some (r.result, r.experience)
        else none) from rfl]
    exact findSome?_guard _ _ _
  · intro rs base addition tr
    rw [RecipeRegistry.matchSmithing, addAll_smith]
    simp only [RecipeRegistry.new, List.nil_append]
    rw [show (fun r : SmithingRecipe => r.matchSelf base addition tr) =
      (fun r : SmithingRecipe => if r.matches base addition tr then some r.result.item
        else none) from rfl]
    exact findSome?_guard _ _ _
  · intro rs item tr
    rw [RecipeRegistry.matchSmoking, addAll_smoke]
    simp only [RecipeRegistry.new, List.nil_append]
    rw [show (fun r : SmokingRecipe => r.matchSelf item tr) =
      (fun r : SmokingRecipe => if r.matches item tr then some (r.result, r.experience)
        else none) from rfl]
    exact findSome?_guard _ _ _
  · intro rs item tr
    rw [RecipeRegistry.matchStonecutting, addAll_stone]
    simp only [RecipeRegistry.new, List.nil_append]
    rw [show (fun r : StonecuttingRecipe => r.matchSelf item tr) =
      (fun r : StonecuttingRecipe => if r.matches item tr
        then some ({ item := r.result, count := r.count, damage := none } : ItemStack)
        else none) from rfl]
    exact findSome?_guard _ _ _
  · intro r1 r2 item tr h
    rw [RecipeRegistry.matchSmelting, addAll_smelt]
    simp [RecipeRegistry.new, List.findSome?_cons, SmeltingRecipe.matchSelf, asSmelting, h]

/-- Claim C2 witness: applied to the two concrete smelting recipes
`smeltA1` and `smeltA2`, both accepting `itemA`, the registry returns the
first recipe's output. -/
theorem registry_first_match_wins_witness :
    (RecipeRegistry.new.addAll [.Smelting smeltA1, .Smelting smeltA2]).matchSmelting
      itemA trEmpty = some (smeltA1.result, smeltA1.experience) :=
  registry_first_match_wins.2.2.2.2.2.2.2 smeltA1 smeltA2 itemA trEmpty (by decide)

/-- Claim C3 (code bug): a mode-4 gesture on a valid, occupied slot does
remove the slot's contents and does emit the entity-scoped drop event with
the item's numeric identity, but the routing match that follows has no arm
for mode 4, so the handler then bails with "unsupported window click mode":
the gesture never completes successfully and none of the four outbound
messages is sent, contradicting the documented drop-gesture behavior. -/
theorem mode4_drop_gesture_always_errors :
    handleClickWindow ms64 packetDrop wDrop =
      { window := { backing := .player, slots := [none, none], cursor := none,
                    paint := .idle },
        events := [7], sent := [],
        error := some "unsupported window click mode" } := by
  decide

/-- Claim C4 counterexample: the source lists thirteen, not twelve,
pairwise distinct special discriminator aliases on the `Special` variant,
and every one of them is recognized. -/
theorem thirteen_special_discriminators :
    specialTypeAliases.Nodup ∧ specialTypeAliases.length = 13 ∧
    specialTypeAliases.all
      (fun s => decide (parseRecipeType s = some RecipeTag.special)) = true := by
  decide

/-- Claim C4 (amended): exactly thirteen fixed special discriminators are
listed; a descriptor whose type string is one of them parses into the
opaque special marker, which is not stored in the registry and does not
fail the load, while a type string outside the eight match-producing kinds,
the thirteen special aliases, and the serde-derived default variant name
"Special" fails to parse. -/
theorem special_discriminators_recognized (s : String) (reg : RecipeRegistry) :
    (s ∈ specialTypeAliases → parseRecipeType s = some RecipeTag.special) ∧
    reg.addRecipe .Special = reg ∧
    (s ∉ kindTypeStrings → s ∉ specialTypeAliases → s ≠ "Special" →
      parseRecipeType s = none) ∧
    specialTypeAliases.length = 13 := by
  refine ⟨?_, rfl, ?_, rfl⟩
  · intro h
    have hk : s ∉ kindTypeStrings := by
      intro hk
      simp only [kindTypeStrings, List.mem_cons, List.not_mem_nil, or_false] at hk
      simp only [specialTypeAliases, List.mem_cons, List.not_mem_nil, or_false] at h
      rcases h with rfl | rfl | rfl | rfl | rfl | rfl | rfl | rfl | rfl | rfl | rfl | rfl | rfl <;>
        simp at hk
    simp only [kindTypeStrings, List.mem_cons, List.not_mem_nil, or_false, not_or] at hk
    obtain ⟨n1, n2, n3, n4, n5, n6, n7, n8⟩ := hk
    simp [parseRecipeType, n1, n2, n3, n4, n5, n6, n7, n8, h]
  · intro hk hs hsp
    simp only [kindTypeStrings, List.mem_cons, List.not_mem_nil, or_false, not_or] at hk
    obtain ⟨n1, n2, n3, n4, n5, n6, n7, n8⟩ := hk
    simp [parseRecipeType, n1, n2, n3, n4, n5, n6, n7, n8, hs, hsp]

/-- Claim C4 witness: the first listed special alias parses into the
special marker, which the registry drops; a type string outside every
recognized discriminator fails to parse. -/
theorem special_discriminators_recognized_witness :
    parseRecipeType "minecraft:crafting_special_armordye" = some RecipeTag.special ∧
    RecipeRegistry.new.addRecipe .Special = RecipeRegistry.new ∧
    parseRecipeType "minecraft:campfire" = none :=
  ⟨(special_discriminators_recognized "minecraft:crafting_special_armordye"
      RecipeRegistry.new).1 (by decide),
   (special_discriminators_recognized "minecraft:crafting_special_armordye"
      RecipeRegistry.new).2.1,
   (special_discriminators_recognized "minecraft:campfire" RecipeRegistry.new).2.2.1
      (by decide) (by decide) (by decide)⟩

/-- Claim C5: a recipe component matches an item iff its item field is
present with the item's identity (name) or its tag field is present and
confirmed by the registry; a single-form ingredient delegates to its one
component and an alternative-set ingredient matches iff some contained
component matches; hence a single-component ingredient with item X matches
X and fails on any distinctly named Y, whatever the tag registry. -/
theorem component_ingredient_matching (X Y : Item) (tr : TagRegistry)
    (hXY : X.name ≠ Y.name) :
    (∀ (c : RecipeComponent) (it : Item) (tr2 : TagRegistry),
        c.matches it tr2 = true ↔
          ((∃ i, c.item = some i ∧ it.name = i.name) ∨
           (∃ t, c.tag = some t ∧ tr2.checkItemTag it t = true))) ∧
    (∀ (c : RecipeComponent) (it : Item) (tr2 : TagRegistry),
        (Ingredient.One c).matches it tr2 = c.matches it tr2) ∧
    (∀ (cs : List RecipeComponent) (it : Item) (tr2 : TagRegistry),
        (Ingredient.Many cs).matches it tr2 = true ↔
          ∃ c ∈ cs, c.matches it tr2 = true) ∧
    (Ingredient.One { item := some X, tag := none }).matches X tr = true ∧
    (Ingredient.One { item := some X, tag := none }).matches Y tr = false := by
  refine ⟨?_, fun c it tr2 => rfl, ?_, ?_, ?_⟩
  · intro c it tr2
    obtain ⟨ci, ct⟩ := c
    cases ci <;> cases ct <;>
      simp [RecipeComponent.matches, beq_iff_eq]
  · intro cs it tr2
    simp [Ingredient.matches, List.any_eq_true]
  · simp [Ingredient.matches, RecipeComponent.matches]
  · have hbeq : (Y.name == X.name) = false := by
      rw [beq_eq_false_iff_ne]
      exact fun h => hXY h.symm
    simp [Ingredient.matches, RecipeComponent.matches, hbeq]

/-- Claim C5 witness: with the distinctly named concrete items `itemA` and
`itemB`, the single-component A-ingredient accepts `itemA` and rejects
`itemB` under the empty tag registry. -/
theorem component_ingredient_matching_witness :
    (Ingredient.One { item := some itemA, tag := none }).matches itemA trEmpty = true ∧
    (Ingredient.One { item := some itemA, tag := none }).matches itemB trEmpty = false :=
  ⟨(component_ingredient_matching itemA itemB trEmpty (by decide)).2.2.2.1,
   (component_ingredient_matching itemA itemB trEmpty (by decide)).2.2.2.2⟩

/-- Claim C6: a smithing recipe matches iff the base ingredient accepts the
base item and the addition ingredient accepts the addition item, the match
returning only the result stack's item (count and damage discarded); the
positions are not interchangeable: a pair in which each item fails its own
assigned position does not match even when each would satisfy the other
position. -/
theorem smithing_positional (r : SmithingRecipe) (b a : Item) (tr : TagRegistry)
    (hb : r.base.matches b tr = false) (hca : r.base.matches a tr = true)
    (hcb : r.addition.matches b tr = true) (ha : r.addition.matches a tr = false) :
    (∀ (r2 : SmithingRecipe) (b2 a2 : Item) (tr2 : TagRegistry),
        r2.matchSelf b2 a2 tr2 =
          if r2.base.matches b2 tr2 && r2.addition.matches a2 tr2
          then some r2.result.item else none) ∧
    r.matchSelf b a tr = none ∧
    r.matchSelf a b tr = some r.result.item := by
  refine ⟨fun r2 b2 a2 tr2 => rfl, ?_, ?_⟩
  · simp [SmithingRecipe.matchSelf, SmithingRecipe.matches, hb]
  · simp [SmithingRecipe.matchSelf, SmithingRecipe.matches, hca, hcb]

/-- Claim C6 witness: the concrete smithing recipe whose base accepts only
`itemA` and whose addition accepts only `itemB` rejects the swapped pair
(base `itemB`, addition `itemA`) although each item satisfies the other
position, and accepts the correctly assigned pair. -/
theorem smithing_positional_witness :
    smithAB.matchSelf itemB itemA trEmpty = none ∧
    smithAB.matchSelf itemA itemB trEmpty = some smithAB.result.item :=
  ⟨(smithing_positional smithAB itemB itemA trEmpty (by decide) (by decide) (by decide)
      (by decide)).2.1,
   (smithing_positional smithAB itemB itemA trEmpty (by decide) (by decide) (by decide)
      (by decide)).2.2⟩

/-- Claim C10: a recipe component with both fields absent matches no item
under any tag registry, and an ingredient consisting only of such empty
components accepts no item. -/
theorem empty_component_matches_nothing (cs : List RecipeComponent)
    (h : ∀ c ∈ cs, c.item = none ∧ c.tag = none) :
    (∀ (it : Item) (tr : TagRegistry),
        RecipeComponent.matches { item := none, tag := none } it tr = false) ∧
    (∀ (it : Item) (tr : TagRegistry), (Ingredient.Many cs).matches it tr = false) ∧
    (∀ (it : Item) (tr : TagRegistry) (c : RecipeComponent), c ∈ cs →
        (Ingredient.One c).matches it tr = false) := by
  refine ⟨fun it tr => rfl, ?_, ?_⟩
  · intro it tr
    simp only [Ingredient.matches, List.any_eq_false]
    intro c hc
    obtain ⟨h1, h2⟩ := h c hc
    obtain ⟨ci, ct⟩ := c
    cases h1; cases h2
    simp [RecipeComponent.matches]
  · intro it tr c hc
    obtain ⟨h1, h2⟩ := h c hc
    obtain ⟨ci, ct⟩ := c
    cases h1; cases h2
    rfl

/-- Claim C10 witness: the singleton empty-component ingredient rejects the
concrete item `itemA` under the empty tag registry. -/
theorem empty_component_matches_nothing_witness :
    (Ingredient.Many [{ item := none, tag := none }]).matches itemA trEmpty = false :=
  (empty_component_matches_nothing [{ item := none, tag := none }]
    (by simp)).2.1 itemA trEmpty

/-- Claim C7 counterexample: with slot -1, the creative-set action errors
outside Creative mode (the gamemode check runs before the slot -1
shortcut), and succeeds in Creative mode even against an externally opened
container window (the window check is skipped for slot -1) — contradicting
both the "slot -1 succeeds as a no-op rather than erroring" reading and the
"never an externally opened container" reading of the claim. -/
theorem creative_slot_neg1_behavior :
    (handleCreativeInventoryAction .survival wPlayerEmpty packetCreativeNeg1).2 =
      some "cannot use Creative Inventory Action outside of creative mode" ∧
    handleCreativeInventoryAction .creative wGenericEmpty packetCreativeNeg1 =
      (wGenericEmpty, none) := by
  decide

/-- Claim C7 (amended): a creative-set action succeeds only while the game
mode is Creative; with slot other than -1 it additionally requires the
entity's own personal-inventory window and then writes the slot; with
slot -1 it succeeds as a no-op (still requiring Creative mode) regardless
of the window's backing; every violation returns an error and leaves every
slot unchanged. -/
theorem creative_set_authorization (gm : Gamemode) (w : WindowState)
    (p : CreativeInventoryAction) :
    (gm ≠ Gamemode.creative →
      handleCreativeInventoryAction gm w p =
        (w, some "cannot use Creative Inventory Action outside of creative mode")) ∧
    (gm = Gamemode.creative → p.slot ≠ -1 → w.isPlayer = false →
      handleCreativeInventoryAction gm w p =
        (w, some "cannot use Creative Inventory Action in external inventories")) ∧
    (gm = Gamemode.creative → p.slot = -1 →
      handleCreativeInventoryAction gm w p = (w, none)) ∧
    (gm = Gamemode.creative → p.slot ≠ -1 → w.isPlayer = true →
      slotAsUsize p.slot < w.slots.length →
      handleCreativeInventoryAction gm w p =
        ({ w with slots := w.slots.set (slotAsUsize p.slot) p.clickedItem }, none)) := by
  refine ⟨?_, ?_, ?_, ?_⟩
  · intro h
    simp [handleCreativeInventoryAction, h]
  · intro h1 h2 h3
    simp [handleCreativeInventoryAction, h1, h2, h3]
  · intro h1 h2
    simp [handleCreativeInventoryAction, h1, h2]
  · intro h1 h2 h3 h4
    simp [handleCreativeInventoryAction, h1, h2, h3, WindowState.setItem, h4]

/-- Claim C7 witness: in Creative mode with the personal window, slot -1 is
a no-op success, and in Survival mode the same action errors without
touching the window. -/
theorem creative_set_authorization_witness :
    handleCreativeInventoryAction .creative wPlayerEmpty packetCreativeNeg1 =
      (wPlayerEmpty, none) ∧
    handleCreativeInventoryAction .survival wPlayerEmpty packetCreativeNeg1 =
      (wPlayerEmpty,
       some "cannot use Creative Inventory Action outside of creative mode") :=
  ⟨(creative_set_authorization .creative wPlayerEmpty packetCreativeNeg1).2.2.1 rfl rfl,
   (creative_set_authorization .survival wPlayerEmpty packetCreativeNeg1).1 (by decide)⟩

lemma finishClick_error_sent (ms : Item → Nat) (p : ClickWindow) (evs : List Nat)
    (w1 : WindowState) :
    (finishClick ms p evs w1).error.isSome = true →
      (finishClick ms p evs w1).sent = [] ∨
      (finishClick ms p evs w1).sent =
        [OutMsg.confirmWindowAction p.windowId p.actionNumber true] := by
  rw [finishClick]
  cases hr : routeClick ms p w1 with
  | error e => intro _; exact Or.inl rfl
  | ok w2 =>
    by_cases hs : (0 : Int) ≤ p.slot
    · simp only [hs, if_true]
      cases hi : w2.itemAt (slotAsUsize p.slot) with
      | error e => intro _; exact Or.inr rfl
      | ok contents => simp
    · simp [hs]

lemma routeClick_unsupported (ms : Item → Nat) (p : ClickWindow) (w : WindowState)
    (h0 : p.mode ≠ 0) (h1 : p.mode ≠ 1) (h5 : p.mode ≠ 5) :
    routeClick ms p w = .error "unsupported window click mode" := by
  simp [routeClick, h0, h1, h5]

/-- Claim C8 counterexample: a begin-paint gesture (mode 5, button 0)
carrying a non-negative out-of-range slot index succeeds in its Window
operation, so the success confirmation is sent, and only then does the
post-success slot read fail — the handler returns an error after having
sent one of the four outbound messages, contradicting "sends none of the
four outbound messages" for every failing gesture. -/
theorem failed_gesture_sends_confirmation :
    (handleClickWindow ms64 packetPaintOob wPlayerEmpty).error =
      some "slot index out of bounds" ∧
    (handleClickWindow ms64 packetPaintOob wPlayerEmpty).sent =
      [OutMsg.confirmWindowAction 1 3 true] := by
  decide

/-- Claim C8 (amended): whenever the handling of a gesture fails, the
handler returns the error, performs no mutation after the failing step, and
sends at most the action confirmation: a failure in the routing table or in
the invoked Window operation suppresses all four outbound messages, while a
failure of the post-success slot read for a non-negative out-of-range slot
index occurs after the confirmation has been sent; in particular any
unrecognized mode leaves the window and events untouched and sends
nothing. -/
theorem click_failure_suppresses_messages (ms : Item → Nat) (p : ClickWindow)
    (w : WindowState) :
    ((handleClickWindow ms p w).error.isSome = true →
      (handleClickWindow ms p w).sent = [] ∨
      (handleClickWindow ms p w).sent =
        [OutMsg.confirmWindowAction p.windowId p.actionNumber true]) ∧
    (p.mode ≠ 0 → p.mode ≠ 1 → p.mode ≠ 4 → p.mode ≠ 5 →
      handleClickWindow ms p w =
        { window := w, events := [], sent := [],
          error := some "unsupported window click mode" }) := by
  constructor
  · rw [handleClickWindow]
    by_cases h4 : p.mode = 4
    · simp only [h4, if_true]
      cases hd : w.dropItem (slotAsUsize p.slot) with
      | error e => intro _; exact Or.inl rfl
      | ok pair => exact finishClick_error_sent ms p _ pair.2
    · simp only [h4, if_false]
      exact finishClick_error_sent ms p [] w
  · intro h0 h1 h4 h5
    rw [handleClickWindow, if_neg h4, finishClick, routeClick_unsupported ms p w h0 h1 h5]

/-- Claim C8 witness: the unsupported mode-3 gesture on the concrete empty
window errors, mutates nothing, and sends none of the four outbound
messages. -/
theorem click_failure_suppresses_messages_witness :
    handleClickWindow ms64 packetMode3 wPlayerEmpty =
      { window := wPlayerEmpty, events := [], sent := [],
        error := some "unsupported window click mode" } :=
  (click_failure_suppresses_messages ms64 packetMode3 wPlayerEmpty).2
    (by decide) (by decide) (by decide) (by decide)

/-- Claim C9 counterexample: applying a failing load to a registry is not
all-or-nothing at the registry level: `add_from_dir` pushes the
successfully parsed prefix before hitting the failing entry, and the
registry it leaves behind exposes that prefix (here the smelting recipe
loaded before the malformed descriptor answers a query). -/
theorem failing_load_retains_prefix :
    (RecipeRegistry.new.addFromDir entriesBad).2 = some loadErr ∧
    (RecipeRegistry.new.addFromDir entriesBad).1.matchSmelting itemA trEmpty =
      some (smeltA1.result, smeltA1.experience) := by
  decide

/-- Claim C9 (amended): if any directory entry fails to read or parse,
`from_dir` returns an error, so no registry value is ever published by a
failing build; the in-place `add_from_dir`, however, has already pushed the
successfully parsed prefix onto the registry it was applied to when it
reports the failure. -/
theorem from_dir_all_or_nothing (entries : List (Except RecipeLoadError Recipe))
    (h : ∃ e, Except.error e ∈ entries) :
    (∃ e2, RecipeRegistry.fromDir entries = .error e2) ∧
    (∀ (reg : RecipeRegistry) (r : Recipe) (e : RecipeLoadError)
        (rest : List (Except RecipeLoadError Recipe)),
      reg.addFromDir (.ok r :: .error e :: rest) = (reg.addRecipe r, some e)) := by
  constructor
  · obtain ⟨e2, he2⟩ := addFromDir_error entries RecipeRegistry.new h
    refine ⟨e2, ?_⟩
    rw [RecipeRegistry.fromDir]
    rcases hp : RecipeRegistry.new.addFromDir entries with ⟨reg, err⟩
    rw [hp] at he2
    simp only at he2
    rw [he2]
  · intro reg r e rest
    rfl

/-- Claim C9 witness: the concrete directory listing with one good smelting
descriptor followed by a malformed one makes `from_dir` return an error. -/
theorem from_dir_all_or_nothing_witness :
    ∃ e2, RecipeRegistry.fromDir entriesBad = .error e2 :=
  (from_dir_all_or_nothing entriesBad
    ⟨loadErr, List.mem_cons_of_mem _ (List.mem_cons_self _ _)⟩).1
